import Mathlib

/-!
Verification of the water-kiosk hardware server
(`water_kiosk_hardware_server.py`).

The development shallowly embeds the verification-and-proxy logic of the
server: JSON scalar values with Python truthiness and `==` semantics,
Python string helpers (`str.replace`, `str.startswith`, `str.lstrip('0')`,
`urllib.parse.quote`), the phone-variant generation and first-match
customer lookup (`lookup_customer_by_phone`), the dispense decision
endpoint (`dispense_verification`), and the query-path construction of
`database_query`.

The remote document database is modelled as a function from a query
string (one phone variant) to either a transport failure or the list of
matching documents; the `random.random()` draw of the fallback policy is
modelled as a rational number in place of the IEEE double, and the
response timestamp is passed in as a parameter.  Composite JSON values
(arrays, nested objects) never occur as request fields or customer
fields in the claims under study, so request and record fields range
over scalar JSON values.
-/

/-- A scalar JSON value, as it appears in a parsed request body or a
customer document field.  Python `None` and JSON `null` coincide after
parsing, so both are `null`. -/
inductive JValue where
  | null : JValue
  | bool (b : Bool) : JValue
  | num (n : Int) : JValue
  | str (s : String) : JValue
deriving DecidableEq

/-- Python truthiness of a scalar value: `None`, `False`, `0` and `""`
are falsy, everything else is truthy. -/
def truthy : JValue → Bool
  | .null => false
  | .bool b => b
  | .num n => n != 0
  | .str s => s != ""

/-- Truthiness of the result of `dict.get` (absent key gives `None`,
which is falsy). -/
def otruthy : Option JValue → Bool
  | none => false
  | some v => truthy v

/-- Python `==` on scalar values: values of the same shape compare
structurally; `bool` and `int` compare across shapes (`True == 1`,
`False == 0`); every other cross-shape comparison is `False`. -/
def jvalEq : JValue → JValue → Bool
  | .null, .null => true
  | .bool a, .bool b => a == b
  | .num a, .num b => a == b
  | .str a, .str b => a == b
  | .bool a, .num n => (if a then (1 : Int) else 0) == n
  | .num n, .bool a => n == (if a then (1 : Int) else 0)
  | _, _ => false

/-- Does `pat` occur as a prefix of `l`?  (Helper for the Python string
operations below.) -/
def charsMatch : List Char → List Char → Bool
  | [], _ => true
  | _ :: _, [] => false
  | p :: ps, c :: cs => p == c && charsMatch ps cs

/-- Does `pat` occur as a substring (at any position)? -/
def hasMatch (pat : List Char) : List Char → Bool
  | [] => charsMatch pat []
  | c :: cs => charsMatch pat (c :: cs) || hasMatch pat cs

/-- Python `pat in s` (substring containment). -/
def containsSub (s pat : String) : Bool :=
  hasMatch pat.data s.data

/-- Worker for Python `str.replace`: scans left to right, replacing each
non-overlapping occurrence of `pat` by `rep`.  `skip` counts characters
still to be consumed by an occurrence already replaced.  (The program
only ever replaces the non-empty pattern `"+254"`; the empty-pattern
behaviour of `str.replace` is not modelled.) -/
def replAux (pat rep : List Char) : Nat → List Char → List Char
  | _, [] => []
  | s + 1, _ :: cs => replAux pat rep s cs
  | 0, c :: cs =>
    if charsMatch pat (c :: cs) && !pat.isEmpty then
      rep ++ replAux pat rep (pat.length - 1) cs
    else
      c :: replAux pat rep 0 cs

/-- Python `s.replace(old, rep)`: every occurrence of `old` in `s` is
replaced by `rep`, left to right, non-overlapping. -/
def pyReplace (s old rep : String) : String :=
  ⟨replAux old.data rep.data 0 s.data⟩

/-- Python `s.startswith(pre)`. -/
def pyStartsWith (s pre : String) : Bool :=
  charsMatch pre.data s.data

/-- Python `s.lstrip('0')`: strip all leading `'0'` characters. -/
def lstripZeros (s : String) : String :=
  ⟨s.data.dropWhile (· == '0')⟩

/-- The phone-number candidate variants tried by
`lookup_customer_by_phone` (source lines 349–355), in order:
the literal input, `phone.replace('+254', '0')`,
`phone.replace('+254', '254')`, `phone.replace('+254', '')`, and
`'+254' + phone.lstrip('0')` when the input does not start with `'+'`
(the literal input again otherwise). -/
def phone_variants (phone : String) : List String :=
  [ phone,
    pyReplace phone "+254" "0",
    pyReplace phone "+254" "254",
    pyReplace phone "+254" "",
    if !(pyStartsWith phone "+") then "+254" ++ lstripZeros phone else phone ]

/-- A customer document as returned by the backend.  Each field is
`none` when the key is absent from the document (so that
`dict.get(key)` and `dict.get('credits', 0)` can be told apart). -/
structure Customer where
  phone_number : Option JValue
  pin : Option JValue
  is_registered : Option JValue
  active : Option JValue
  account_id : Option JValue
  full_name : Option JValue
  credits : Option JValue
deriving DecidableEq

/-- The backend, as seen through one `equal("phone_number", variant)`
query: either a transport/backend failure (`error`) or the list of
matching documents. -/
abbrev DB := String → Except Unit (List Customer)

/-- The dictionary returned by `lookup_customer_by_phone`
(`customer_data` is absent in the not-found dictionary). -/
structure LookupResult where
  found : Bool
  valid_pin : Bool
  is_registered : Bool
  active : Bool
  customer_data : Option (List (String × JValue))
deriving DecidableEq

/-- The redacted customer view attached to a successful lookup
(source lines 384–390): `phone_number`, `account_id`, `full_name`,
`active`, and `credits` (defaulting to `0` when absent). -/
def customer_data (c : Customer) : List (String × JValue) :=
  [ ("phone_number", c.phone_number.getD .null),
    ("account_id", c.account_id.getD .null),
    ("full_name", c.full_name.getD .null),
    ("active", c.active.getD .null),
    ("credits", c.credits.getD (.num 0)) ]

/-- The dictionary built when a variant query returns at least one
document (source lines 371–391): flags computed by Python `==` from the
first document of the result. -/
def foundResult (c : Customer) (pin : JValue) : LookupResult :=
  { found := true
    valid_pin := jvalEq (c.pin.getD .null) pin
    is_registered := jvalEq (c.is_registered.getD .null) (.bool true)
    active := jvalEq (c.active.getD .null) (.bool true)
    customer_data := some (customer_data c) }

/-- The dictionary returned when no variant matches
(source lines 394–399). -/
def notFoundResult : LookupResult :=
  { found := false, valid_pin := false, is_registered := false,
    active := false, customer_data := none }

/-- The `for variant in phone_variants` loop of
`lookup_customer_by_phone`: query each variant in order, propagate a
backend failure, stop at the first variant whose result is non-empty
and build `foundResult` from its first document. -/
def lookupLoop (db : DB) (pin : JValue) : List String → Except Unit LookupResult
  | [] => .ok notFoundResult
  | v :: vs =>
    match db v with
    | .error e => .error e
    | .ok [] => lookupLoop db pin vs
    | .ok (c :: _) => .ok (foundResult c pin)

/-- `lookup_customer_by_phone` (source lines 343–403): try the phone
variants in order; a backend failure is re-raised to the caller. -/
def lookup_customer_by_phone (db : DB) (phone : String) (pin : JValue) :
    Except Unit LookupResult :=
  lookupLoop db pin (phone_variants phone)

/-- The sequence of variant strings actually sent to the backend by the
lookup loop (the loop stops after a failure or after the first variant
with a non-empty result). -/
def lookupTrace (db : DB) : List String → List String
  | [] => []
  | v :: vs =>
    match db v with
    | .error _ => [v]
    | .ok [] => v :: lookupTrace db vs
    | .ok (_ :: _) => [v]

/-- A value in the response JSON of the dispense endpoint: either a
scalar, or the nested `user_data` object. -/
inductive RVal where
  | jv (v : JValue) : RVal
  | obj (fields : List (String × JValue)) : RVal
deriving DecidableEq

/-- The outcome of one call to the dispense endpoint: HTTP status,
response JSON body (as an ordered key/value list), and the sequence of
phone-variant query strings sent to the backend during the call. -/
structure HttpResult where
  status : Nat
  body : List (String × RVal)
  queried : List String
deriving DecidableEq

/-- Body of the 400 response for a request failing the required-field
check (source lines 71–76). -/
def invalidFormatBody : List (String × RVal) :=
  [ ("error", .jv (.str "Missing required fields: kiosk_id, user_id (phone_number), pin")),
    ("approved", .jv (.bool false)),
    ("reason", .jv (.str "Invalid request format")) ]

/-- The fallback approval (source line 115): `random.random() < 0.9`,
with the drawn number modelled as a rational. -/
def fallbackApproved (r : ℚ) : Bool :=
  decide (r < 9 / 10)

/-- The fallback reason string (source lines 116–117). -/
def fallbackReason (r : ℚ) : String :=
  if fallbackApproved r then
    "Database unavailable - approved by fallback (90% chance)"
  else
    "Database unavailable - denied by fallback (10% chance)"

/-- The approve/deny chain of source lines 87–108, applied to the
dictionary returned by `lookup_customer_by_phone`: registration flag
first, then the active flag, then the PIN, with `user_data` set only on
approval. -/
def decideFromLookup (res : LookupResult) :
    Bool × String × Option (List (String × JValue)) :=
  if res.found then
    if !res.is_registered then (false, "Customer not fully registered", none)
    else if !res.active then (false, "Subscription inactive", none)
    else if !res.valid_pin then (false, "Invalid PIN", none)
    else (true, "Customer verified in database", res.customer_data)
  else
    (false, "Customer not found in database", none)

/-- The `try`/`except` around the lookup (source lines 82–117):
when `user_id` is a string the lookup runs, a backend failure being
absorbed into the random fallback; when `user_id` is a truthy
non-string, building the first variant raises (`.replace` on a
non-string) before any backend call, which the same `except` turns into
the fallback with no query issued.  Returns
(approved, reason, user_data, queried variants). -/
def dispatchLookup (phoneV pinV : JValue) (db : DB) (r : ℚ) :
    Bool × String × Option (List (String × JValue)) × List String :=
  match phoneV with
  | .str phone =>
    match lookup_customer_by_phone db phone pinV with
    | .ok res =>
      ((decideFromLookup res).1, (decideFromLookup res).2.1,
       (decideFromLookup res).2.2, lookupTrace db (phone_variants phone))
    | .error _ =>
      (fallbackApproved r, fallbackReason r, none,
       lookupTrace db (phone_variants phone))
  | _ => (fallbackApproved r, fallbackReason r, none, [])

/-- The response dictionary of source lines 120–137, in insertion
order; `user_data` is appended only when present (the source assigns it
twice, which is idempotent, and the attached dictionary always has five
keys, so Python dict truthiness coincides with presence here). -/
def mkResponseBody (kioskV phoneV pinV volV : JValue) (approved : Bool)
    (reason : String) (now : String)
    (user_data : Option (List (String × JValue))) : List (String × RVal) :=
  [ ("type", .jv (.str "dispense_response")),
    ("user_id", .jv phoneV),
    ("pin", .jv pinV),
    ("volume_ml", .jv volV),
    ("approved", .jv (.bool approved)),
    ("reason", .jv (.str reason)),
    ("timestamp", .jv (.str now)),
    ("kiosk_id", .jv kioskV) ]
  ++ (match user_data with
      | some d => [("user_data", RVal.obj d)]
      | none => [])

/-- The body of the dispense handler for a non-empty JSON body
(source lines 64–141): extract the fields with `dict.get`, reject the
request when any of `kiosk_id`, `user_id`, `pin` is falsy, otherwise
decide and build the response. -/
def dispenseBody (body : List (String × JValue)) (db : DB) (r : ℚ)
    (now : String) : HttpResult :=
  let kiosk_id := List.lookup "kiosk_id" body
  let phone_number := List.lookup "user_id" body
  let pin := List.lookup "pin" body
  let volume_ml := List.lookup "volume_ml" body
  if !(otruthy kiosk_id && otruthy phone_number && otruthy pin) then
    ⟨400, invalidFormatBody, []⟩
  else
    let t := dispatchLookup (phone_number.getD .null) (pin.getD .null) db r
    ⟨200,
     mkResponseBody (kiosk_id.getD .null) (phone_number.getD .null)
       (pin.getD .null) (volume_ml.getD .null) t.1 t.2.1 now t.2.2.1,
     t.2.2.2⟩

/-- The dispense endpoint (source lines 53–141).  `data` is the parsed
JSON body: `none` for a missing/invalid JSON body; Python `if not data`
also sends an empty JSON object to the `'No JSON data provided'`
branch. -/
def dispense_verification (data : Option (List (String × JValue)))
    (db : DB) (r : ℚ) (now : String) : HttpResult :=
  match data with
  | none => ⟨400, [("error", .jv (.str "No JSON data provided"))], []⟩
  | some body =>
    if body.isEmpty then ⟨400, [("error", .jv (.str "No JSON data provided"))], []⟩
    else dispenseBody body db r now

/-- One hexadecimal digit, uppercase, as produced by
`urllib.parse.quote`. -/
def hexDigit (n : Nat) : Char :=
  if n < 10 then Char.ofNat (48 + n) else Char.ofNat (55 + n)

/-- UTF-8 encoding of one character (as byte values), as Python encodes
a string before percent-escaping it. -/
def utf8Bytes (c : Char) : List Nat :=
  let n := c.toNat
  if n < 0x80 then [n]
  else if n < 0x800 then [0xC0 + n / 0x40, 0x80 + n % 0x40]
  else if n < 0x10000 then
    [0xE0 + n / 0x1000, 0x80 + (n / 0x40) % 0x40, 0x80 + n % 0x40]
  else
    [0xF0 + n / 0x40000, 0x80 + (n / 0x1000) % 0x40,
     0x80 + (n / 0x40) % 0x40, 0x80 + n % 0x40]

/-- Bytes left unescaped by `urllib.parse.quote` with its default
`safe='/'`: ASCII letters, digits, `-`, `.`, `_`, `~` and `/`. -/
def unreservedByte (b : Nat) : Bool :=
  (65 ≤ b && b ≤ 90) || (97 ≤ b && b ≤ 122) || (48 ≤ b && b ≤ 57) ||
    b == 45 || b == 46 || b == 95 || b == 126 || b == 47

/-- Percent-escaping of one byte. -/
def quoteByte (b : Nat) : List Char :=
  if unreservedByte b then [Char.ofNat b]
  else ['%', hexDigit (b / 16), hexDigit (b % 16)]

/-- `urllib.parse.quote(s)` with the default `safe='/'`. -/
def pyQuote (s : String) : String :=
  ⟨(s.data.flatMap utf8Bytes).flatMap quoteByte⟩

/-- The document-listing path used by `database_query`
(source line 175). -/
def documents_path (database collection : String) : String :=
  "/v1/databases/" ++ database ++ "/collections/" ++ collection ++ "/documents"

/-- The request path built by `database_query` (source lines 174–178):
when the `queries` list is non-empty, each filter is individually
escaped and joined with `&` as repeated `queries[]=` parameters behind
a `?`; an empty list leaves the bare documents path. -/
def database_query_path (database collection : String)
    (queries : List String) : String :=
  if queries.isEmpty then documents_path database collection
  else
    documents_path database collection ++ "?" ++
      String.intercalate "&" (queries.map (fun q => "queries[]=" ++ pyQuote q))

/-- The `approved` field of a response body. -/
def approvedOf (h : HttpResult) : Option RVal :=
  List.lookup "approved" h.body

/-- The `reason` field of a response body. -/
def reasonOf (h : HttpResult) : Option RVal :=
  List.lookup "reason" h.body

/-- Modelled from the claim's words for C3: replace `old` only when it
occurs as a leading prefix of `s`. -/
def replaceLeading (s old rep : String) : String :=
  if pyStartsWith s old then rep ++ ⟨s.data.drop old.data.length⟩ else s

/-- Modelled from the claim's words for C3: the five candidate variants
with the country code replaced only where it is a prefix of the
input. -/
def claimedVariants (phone : String) : List String :=
  [ phone,
    replaceLeading phone "+254" "0",
    replaceLeading phone "+254" "254",
    replaceLeading phone "+254" "",
    if !(pyStartsWith phone "+") then "+254" ++ lstripZeros phone else phone ]

/-- List of escaped repeated query parameters, as claim C8 words it:
each filter escaped individually, in the order given. -/
def escapedParams : List String → List String
  | [] => []
  | q :: qs => ("queries[]=" ++ pyQuote q) :: escapedParams qs

/-- Modelled from the claim's words for C8: the request path with each
filter URL-escaped individually and appended as a repeated
`queries[]=` parameter in order; an empty list gives the bare
unfiltered document-listing path. -/
def claimedQueryPath (database collection : String)
    (queries : List String) : String :=
  match queries with
  | [] => documents_path database collection
  | _ :: _ =>
    documents_path database collection ++ "?" ++
      String.intercalate "&" (escapedParams queries)

/-- A concrete registered, active customer with stored PIN "1234",
used by the witnesses. -/
def exCustomer : Customer :=
  ⟨some (.str "0700111"), some (.str "1234"), some (.bool true),
   some (.bool true), some (.str "acct-1"), some (.str "Jane Doe"),
   some (.num 5)⟩

/-- A concrete complete request body whose PIN matches `exCustomer`. -/
def exBody : List (String × JValue) :=
  [("kiosk_id", .str "K1"), ("user_id", .str "0700111"),
   ("pin", .str "1234"), ("volume_ml", .num 500)]

/-- The same request body with a wrong PIN. -/
def exBodyBadPin : List (String × JValue) :=
  [("kiosk_id", .str "K1"), ("user_id", .str "0700111"),
   ("pin", .str "9999"), ("volume_ml", .num 500)]

/-- A backend holding exactly `exCustomer` under the literal phone
string. -/
def exDb : DB := fun v => if v = "0700111" then .ok [exCustomer] else .ok []

/-- A backend that fails every query (simulated network error). -/
def exDbFail : DB := fun _ => .error ()

/-- A backend that matches only the third variant of "+254712". -/
def exDbThird : DB := fun v => if v = "254712" then .ok [exCustomer] else .ok []

lemma mk_lookup_kiosk (kioskV phoneV pinV volV : JValue) (a : Bool) (s now : String)
    (ud : Option (List (String × JValue))) :
    List.lookup "kiosk_id" (mkResponseBody kioskV phoneV pinV volV a s now ud) =
      some (.jv kioskV) := rfl

lemma mk_lookup_user_id (kioskV phoneV pinV volV : JValue) (a : Bool) (s now : String)
    (ud : Option (List (String × JValue))) :
    List.lookup "user_id" (mkResponseBody kioskV phoneV pinV volV a s now ud) =
      some (.jv phoneV) := rfl

lemma mk_lookup_pin (kioskV phoneV pinV volV : JValue) (a : Bool) (s now : String)
    (ud : Option (List (String × JValue))) :
    List.lookup "pin" (mkResponseBody kioskV phoneV pinV volV a s now ud) =
      some (.jv pinV) := rfl

lemma mk_lookup_volume (kioskV phoneV pinV volV : JValue) (a : Bool) (s now : String)
    (ud : Option (List (String × JValue))) :
    List.lookup "volume_ml" (mkResponseBody kioskV phoneV pinV volV a s now ud) =
      some (.jv volV) := rfl

lemma mk_lookup_approved (kioskV phoneV pinV volV : JValue) (a : Bool) (s now : String)
    (ud : Option (List (String × JValue))) :
    List.lookup "approved" (mkResponseBody kioskV phoneV pinV volV a s now ud) =
      some (.jv (.bool a)) := rfl

lemma mk_lookup_reason (kioskV phoneV pinV volV : JValue) (a : Bool) (s now : String)
    (ud : Option (List (String × JValue))) :
    List.lookup "reason" (mkResponseBody kioskV phoneV pinV volV a s now ud) =
      some (.jv (.str s)) := rfl

lemma mk_lookup_timestamp (kioskV phoneV pinV volV : JValue) (a : Bool) (s now : String)
    (ud : Option (List (String × JValue))) :
    List.lookup "timestamp" (mkResponseBody kioskV phoneV pinV volV a s now ud) =
      some (.jv (.str now)) := rfl

lemma mk_lookup_user_data (kioskV phoneV pinV volV : JValue) (a : Bool) (s now : String)
    (ud : Option (List (String × JValue))) :
    List.lookup "user_data" (mkResponseBody kioskV phoneV pinV volV a s now ud) =
      ud.map RVal.obj := by
  cases ud <;> rfl

lemma dispense_ok (body : List (String × JValue)) (db : DB) (r : ℚ) (now : String)
    (hk : otruthy (List.lookup "kiosk_id" body) = true)
    (hu : otruthy (List.lookup "user_id" body) = true)
    (hp : otruthy (List.lookup "pin" body) = true) :
    dispense_verification (some body) db r now =
      ⟨200,
       mkResponseBody ((List.lookup "kiosk_id" body).getD .null)
         ((List.lookup "user_id" body).getD .null)
         ((List.lookup "pin" body).getD .null)
         ((List.lookup "volume_ml" body).getD .null)
         (dispatchLookup ((List.lookup "user_id" body).getD .null)
           ((List.lookup "pin" body).getD .null) db r).1
         (dispatchLookup ((List.lookup "user_id" body).getD .null)
           ((List.lookup "pin" body).getD .null) db r).2.1
         now
         (dispatchLookup ((List.lookup "user_id" body).getD .null)
           ((List.lookup "pin" body).getD .null) db r).2.2.1,
       (dispatchLookup ((List.lookup "user_id" body).getD .null)
         ((List.lookup "pin" body).getD .null) db r).2.2.2⟩ := by
  have hne : body.isEmpty = false := by
    cases body with
    | nil => simp [otruthy, List.lookup] at hu
    | cons a l => rfl
  simp [dispense_verification, hne, dispenseBody, hk, hu, hp]

lemma dispense_invalid (body : List (String × JValue)) (db : DB) (r : ℚ) (now : String)
    (hne : body ≠ [])
    (h : otruthy (List.lookup "kiosk_id" body) = false ∨
         otruthy (List.lookup "user_id" body) = false ∨
         otruthy (List.lookup "pin" body) = false) :
    dispense_verification (some body) db r now = ⟨400, invalidFormatBody, []⟩ := by
  have hE : body.isEmpty = false := by
    cases body with
    | nil => exact absurd rfl hne
    | cons a l => rfl
  rcases h with h | h | h <;> simp [dispense_verification, hE, dispenseBody, h]

lemma replAux_of_no_occurrence (pat rep : List Char) :
    ∀ l : List Char, hasMatch pat l = false → replAux pat rep 0 l = l := by
  intro l
  induction l with
  | nil => intro _; rfl
  | cons c cs ih =>
    intro h
    have h' : charsMatch pat (c :: cs) = false ∧ hasMatch pat cs = false := by
      simpa [hasMatch] using h
    simp [replAux, h'.1, ih h'.2]

lemma pyReplace_of_no_occurrence (p old rep : String)
    (h : containsSub p old = false) :
    pyReplace p old rep = p := by
  unfold containsSub at h
  unfold pyReplace
  rw [replAux_of_no_occurrence _ _ _ h]

lemma lookupLoop_all_empty (db : DB) (pin : JValue) :
    ∀ vs : List String, (∀ u ∈ vs, db u = .ok []) →
      lookupLoop db pin vs = .ok notFoundResult ∧ lookupTrace db vs = vs := by
  intro vs
  induction vs with
  | nil => intro _; exact ⟨rfl, rfl⟩
  | cons v vs ih =>
    intro h
    have hv : db v = .ok [] := h v (List.mem_cons_self v vs)
    have ht := ih (fun u hu => h u (List.mem_cons_of_mem _ hu))
    exact ⟨by simp [lookupLoop, hv, ht.1], by simp [lookupTrace, hv, ht.2]⟩

lemma all_empty_of_lookupLoop (db : DB) (pin : JValue) :
    ∀ vs : List String, lookupLoop db pin vs = .ok notFoundResult →
      ∀ u ∈ vs, db u = .ok [] := by
  intro vs
  induction vs with
  | nil => intro _ u hu; cases hu
  | cons v vs ih =>
    intro h u hu
    cases hdb : db v with
    | error e => simp [lookupLoop, hdb] at h
    | ok docs =>
      cases docs with
      | nil =>
        rcases List.mem_cons.mp hu with rfl | hu'
        · exact hdb
        · exact ih (by simpa [lookupLoop, hdb] using h) u hu'
      | cons c cs =>
        simp [lookupLoop, hdb, foundResult, notFoundResult] at h

lemma lookupLoop_split (db : DB) (pin : JValue) (v : String) (vs₂ : List String)
    (c : Customer) (cs : List Customer) :
    ∀ vs₁ : List String, (∀ u ∈ vs₁, db u = .ok []) → db v = .ok (c :: cs) →
      lookupLoop db pin (vs₁ ++ v :: vs₂) = .ok (foundResult c pin) ∧
      lookupTrace db (vs₁ ++ v :: vs₂) = vs₁ ++ [v] := by
  intro vs₁
  induction vs₁ with
  | nil => intro _ hv; exact ⟨by simp [lookupLoop, hv], by simp [lookupTrace, hv]⟩
  | cons a as ih =>
    intro h hv
    have ha : db a = .ok [] := h a (List.mem_cons_self a as)
    have ht := ih (fun u hu => h u (List.mem_cons_of_mem _ hu)) hv
    exact ⟨by simp [lookupLoop, ha, ht.1], by simp [lookupTrace, ha, ht.2]⟩

lemma escapedParams_eq_map (qs : List String) :
    escapedParams qs = qs.map (fun q => "queries[]=" ++ pyQuote q) := by
  induction qs with
  | nil => rfl
  | cons q qs ih => simp [escapedParams, ih]

/-- C1: once the customer lookup finds a record, the approve/deny
decision is evaluated in strict order — an unregistered record is
denied "Customer not fully registered" regardless of PIN, an inactive
one "Subscription inactive" before the PIN check, a PIN mismatch
"Invalid PIN", and only a fully passing record is approved "Customer
verified in database"; a missing record is denied "Customer not found
in database". -/
theorem claim1 (body : List (String × JValue)) (db : DB) (r : ℚ) (now : String)
    (phone : String) (res : LookupResult) (c : Customer)
    (hk : otruthy (List.lookup "kiosk_id" body) = true)
    (hu : List.lookup "user_id" body = some (.str phone))
    (hps : phone ≠ "")
    (hp : otruthy (List.lookup "pin" body) = true)
    (hl : lookup_customer_by_phone db phone
        ((List.lookup "pin" body).getD .null) = .ok res) :
    (res = foundResult c ((List.lookup "pin" body).getD .null) →
      (jvalEq (c.is_registered.getD .null) (.bool true) = false →
        approvedOf (dispense_verification (some body) db r now) =
          some (.jv (.bool false)) ∧
        reasonOf (dispense_verification (some body) db r now) =
          some (.jv (.str "Customer not fully registered"))) ∧
      (jvalEq (c.is_registered.getD .null) (.bool true) = true →
       jvalEq (c.active.getD .null) (.bool true) = false →
        approvedOf (dispense_verification (some body) db r now) =
          some (.jv (.bool false)) ∧
        reasonOf (dispense_verification (some body) db r now) =
          some (.jv (.str "Subscription inactive"))) ∧
      (jvalEq (c.is_registered.getD .null) (.bool true) = true →
       jvalEq (c.active.getD .null) (.bool true) = true →
       jvalEq (c.pin.getD .null) ((List.lookup "pin" body).getD .null) = false →
        approvedOf (dispense_verification (some body) db r now) =
          some (.jv (.bool false)) ∧
        reasonOf (dispense_verification (some body) db r now) =
          some (.jv (.str "Invalid PIN"))) ∧
      (jvalEq (c.is_registered.getD .null) (.bool true) = true →
       jvalEq (c.active.getD .null) (.bool true) = true →
       jvalEq (c.pin.getD .null) ((List.lookup "pin" body).getD .null) = true →
        approvedOf (dispense_verification (some body) db r now) =
          some (.jv (.bool true)) ∧
        reasonOf (dispense_verification (some body) db r now) =
          some (.jv (.str "Customer verified in database")))) ∧
    (res = notFoundResult →
      approvedOf (dispense_verification (some body) db r now) =
        some (.jv (.bool false)) ∧
      reasonOf (dispense_verification (some body) db r now) =
        some (.jv (.str "Customer not found in database"))) := by
  have hou : otruthy (List.lookup "user_id" body) = true := by
    simp [otruthy, hu, truthy, bne_iff_ne, hps]
  have hmain := dispense_ok body db r now hk hou hp
  constructor
  · intro hres
    subst hres
    refine ⟨fun h1 => ?_, fun h1 h2 => ?_, fun h1 h2 h3 => ?_, fun h1 h2 h3 => ?_⟩ <;>
      constructor <;>
        simp [approvedOf, reasonOf, hmain, hu, dispatchLookup, hl,
          decideFromLookup, foundResult, mk_lookup_approved, mk_lookup_reason, *]
  · intro hres
    subst hres
    constructor <;>
      simp [approvedOf, reasonOf, hmain, hu, dispatchLookup, hl,
        decideFromLookup, notFoundResult, mk_lookup_approved, mk_lookup_reason]

/-- Witness for C1: a registered, active customer with stored PIN
"1234" against claimed PIN "9999" is denied with reason "Invalid
PIN". -/
theorem claim1_witness :
    (otruthy (List.lookup "kiosk_id" exBodyBadPin) = true ∧
     List.lookup "user_id" exBodyBadPin = some (.str "0700111") ∧
     otruthy (List.lookup "pin" exBodyBadPin) = true ∧
     lookup_customer_by_phone exDb "0700111"
       ((List.lookup "pin" exBodyBadPin).getD .null) =
         .ok (foundResult exCustomer ((List.lookup "pin" exBodyBadPin).getD .null))) ∧
    approvedOf (dispense_verification (some exBodyBadPin) exDb 0 "t") =
      some (.jv (.bool false)) ∧
    reasonOf (dispense_verification (some exBodyBadPin) exDb 0 "t") =
      some (.jv (.str "Invalid PIN")) := by
  refine ⟨⟨by decide, rfl, by decide, rfl⟩, ?_⟩
  exact ((claim1 exBodyBadPin exDb 0 "t" "0700111"
    (foundResult exCustomer ((List.lookup "pin" exBodyBadPin).getD .null))
    exCustomer (by decide) rfl (by decide) (by decide) rfl).1 rfl).2.2.1
    (by decide) (by decide) (by decide)

/-- C2: when the lookup raises a backend failure, the endpoint does not
propagate the error — it still returns a 200 decision, approving
exactly when the drawn random number is below 9/10 and denying
otherwise, and in both branches the reason string starts with
"Database unavailable". -/
theorem claim2 (body : List (String × JValue)) (db : DB) (r : ℚ) (now : String)
    (phone : String)
    (hk : otruthy (List.lookup "kiosk_id" body) = true)
    (hu : List.lookup "user_id" body = some (.str phone))
    (hps : phone ≠ "")
    (hp : otruthy (List.lookup "pin" body) = true)
    (herr : lookup_customer_by_phone db phone
        ((List.lookup "pin" body).getD .null) = .error ()) :
    (dispense_verification (some body) db r now).status = 200 ∧
    (approvedOf (dispense_verification (some body) db r now) =
       some (.jv (.bool true)) ↔ r < 9 / 10) ∧
    (approvedOf (dispense_verification (some body) db r now) =
       some (.jv (.bool false)) ↔ ¬ r < 9 / 10) ∧
    ∃ s, reasonOf (dispense_verification (some body) db r now) =
        some (.jv (.str s)) ∧
      pyStartsWith s "Database unavailable" = true := by
  have hou : otruthy (List.lookup "user_id" body) = true := by
    simp [otruthy, hu, truthy, bne_iff_ne, hps]
  have hmain := dispense_ok body db r now hk hou hp
  refine ⟨by simp [hmain], ?_, ?_, ?_⟩
  · simp [approvedOf, hmain, hu, dispatchLookup, herr, mk_lookup_approved,
      fallbackApproved]
  · simp [approvedOf, hmain, hu, dispatchLookup, herr, mk_lookup_approved,
      fallbackApproved]
  · refine ⟨fallbackReason r, ?_, ?_⟩
    · simp [reasonOf, hmain, hu, dispatchLookup, herr, mk_lookup_reason]
    · unfold fallbackReason
      split <;> decide

/-- Witness for C2 with an always-failing backend and the draw 1/2. -/
theorem claim2_witness :
    (otruthy (List.lookup "kiosk_id" exBody) = true ∧
     List.lookup "user_id" exBody = some (.str "0700111") ∧
     otruthy (List.lookup "pin" exBody) = true ∧
     lookup_customer_by_phone exDbFail "0700111"
       ((List.lookup "pin" exBody).getD .null) = .error ()) ∧
    (dispense_verification (some exBody) exDbFail (1 / 2) "t").status = 200 ∧
    approvedOf (dispense_verification (some exBody) exDbFail (1 / 2) "t") =
      some (.jv (.bool true)) ∧
    ∃ s, reasonOf (dispense_verification (some exBody) exDbFail (1 / 2) "t") =
        some (.jv (.str s)) ∧
      pyStartsWith s "Database unavailable" = true := by
  have h := claim2 exBody exDbFail (1 / 2) "t" "0700111" (by decide) rfl
    (by decide) (by decide) rfl
  exact ⟨⟨by decide, rfl, by decide, rfl⟩, h.1, h.2.1.mpr (by norm_num),
    h.2.2.2⟩

/-- C3 fails as stated: on the input "0712+254", whose only occurrence
of "+254" is not a leading prefix, the code's second variant rewrites
the non-prefix occurrence (giving "07120"), while the claimed prefix
replacement leaves the input unchanged. -/
theorem claim3_counterexample :
    (phone_variants "0712+254")[1]? = some "07120" ∧
    (claimedVariants "0712+254")[1]? = some "0712+254" ∧
    phone_variants "0712+254" ≠ claimedVariants "0712+254" := by decide

/-- C3 (amended): the normalization produces a fixed, deterministic
list of five candidates: the literal input first; then the input with
every occurrence of "+254" replaced by "0", by "254", and by the empty
string (Python `str.replace` semantics, not only a leading prefix);
and, when the input does not start with "+", the input with leading
zeros stripped and "+254" prepended (otherwise the literal input
again). -/
theorem claim3_amended (phone : String) :
    (phone_variants phone).length = 5 ∧
    (phone_variants phone)[0]? = some phone ∧
    (phone_variants phone)[1]? = some (pyReplace phone "+254" "0") ∧
    (phone_variants phone)[2]? = some (pyReplace phone "+254" "254") ∧
    (phone_variants phone)[3]? = some (pyReplace phone "+254" "") ∧
    (phone_variants phone)[4]? =
      some (if !(pyStartsWith phone "+") then "+254" ++ lstripZeros phone
            else phone) :=
  ⟨rfl, rfl, rfl, rfl, rfl, rfl⟩

/-- C4: the lookup queries the backend once per candidate variant in
list order, short-circuits at the first variant returning at least one
document (using that result's first document and querying no later
variant), and reports not-found exactly when every variant's query
returns no documents. -/
theorem claim4 (db : DB) (pin : JValue) (phone : String) :
    ((∀ u ∈ phone_variants phone, db u = .ok []) ↔
      lookup_customer_by_phone db phone pin = .ok notFoundResult) ∧
    ((∀ u ∈ phone_variants phone, db u = .ok []) →
      lookupTrace db (phone_variants phone) = phone_variants phone) ∧
    (∀ (vs₁ : List String) (v : String) (vs₂ : List String) (c : Customer)
        (cs : List Customer),
      phone_variants phone = vs₁ ++ v :: vs₂ →
      (∀ u ∈ vs₁, db u = .ok []) →
      db v = .ok (c :: cs) →
      lookup_customer_by_phone db phone pin = .ok (foundResult c pin) ∧
      lookupTrace db (phone_variants phone) = vs₁ ++ [v]) := by
  refine ⟨⟨fun h => (lookupLoop_all_empty db pin _ h).1,
    fun h => all_empty_of_lookupLoop db pin _ h⟩,
    fun h => (lookupLoop_all_empty db pin _ h).2, ?_⟩
  intro vs₁ v vs₂ c cs hsplit h1 hv
  have h := lookupLoop_split db pin v vs₂ c cs vs₁ h1 hv
  rw [lookup_customer_by_phone, hsplit]
  exact h

/-- Witness for C4: for the input "+254712" the third variant "254712"
matches; the first two variants are queried and return nothing, the
match short-circuits the loop, and the last two variants are never
queried. -/
theorem claim4_witness :
    (phone_variants "+254712" = ["+254712", "0712"] ++ "254712" :: ["712", "+254712"] ∧
     (∀ u ∈ ["+254712", "0712"], exDbThird u = .ok []) ∧
     exDbThird "254712" = .ok [exCustomer]) ∧
    lookup_customer_by_phone exDbThird "+254712" (.str "1234") =
      .ok (foundResult exCustomer (.str "1234")) ∧
    lookupTrace exDbThird (phone_variants "+254712") =
      ["+254712", "0712", "254712"] := by
  have hmem : ∀ u ∈ ["+254712", "0712"], exDbThird u = .ok [] := by
    intro u hu
    fin_cases hu <;> rfl
  have h := (claim4 exDbThird (.str "1234") "+254712").2.2
    ["+254712", "0712"] "254712" ["712", "+254712"] exCustomer []
    (by decide) hmem rfl
  exact ⟨⟨by decide, hmem, rfl⟩, h.1, h.2.trans (by decide)⟩

/-- C5: an approved decision attaches exactly the redacted fields
phone_number, account_id, full_name, active and credits taken from the
matched record, and never the stored PIN field. -/
theorem claim5 (body : List (String × JValue)) (db : DB) (r : ℚ) (now : String)
    (phone : String) (c : Customer)
    (hk : otruthy (List.lookup "kiosk_id" body) = true)
    (hu : List.lookup "user_id" body = some (.str phone))
    (hps : phone ≠ "")
    (hp : otruthy (List.lookup "pin" body) = true)
    (hl : lookup_customer_by_phone db phone
        ((List.lookup "pin" body).getD .null) =
      .ok (foundResult c ((List.lookup "pin" body).getD .null)))
    (hreg : jvalEq (c.is_registered.getD .null) (.bool true) = true)
    (hact : jvalEq (c.active.getD .null) (.bool true) = true)
    (hpin : jvalEq (c.pin.getD .null)
        ((List.lookup "pin" body).getD .null) = true) :
    approvedOf (dispense_verification (some body) db r now) =
      some (.jv (.bool true)) ∧
    List.lookup "user_data" (dispense_verification (some body) db r now).body =
      some (.obj (customer_data c)) ∧
    customer_data c =
      [("phone_number", c.phone_number.getD .null),
       ("account_id", c.account_id.getD .null),
       ("full_name", c.full_name.getD .null),
       ("active", c.active.getD .null),
       ("credits", c.credits.getD (.num 0))] ∧
    (customer_data c).map Prod.fst =
      ["phone_number", "account_id", "full_name", "active", "credits"] ∧
    "pin" ∉ (customer_data c).map Prod.fst := by
  have hou : otruthy (List.lookup "user_id" body) = true := by
    simp [otruthy, hu, truthy, bne_iff_ne, hps]
  have hmain := dispense_ok body db r now hk hou hp
  refine ⟨?_, ?_, rfl, rfl, ?_⟩
  · simp [approvedOf, hmain, hu, dispatchLookup, hl, decideFromLookup,
      foundResult, hreg, hact, hpin, mk_lookup_approved]
  · simp [hmain, hu, dispatchLookup, hl, decideFromLookup, foundResult,
      hreg, hact, hpin, mk_lookup_user_data]
  · rw [show (customer_data c).map Prod.fst =
      ["phone_number", "account_id", "full_name", "active", "credits"] from rfl]
    decide

/-- Witness for C5: the fully passing record `exCustomer`. -/
theorem claim5_witness :
    (otruthy (List.lookup "kiosk_id" exBody) = true ∧
     List.lookup "user_id" exBody = some (.str "0700111") ∧
     otruthy (List.lookup "pin" exBody) = true ∧
     lookup_customer_by_phone exDb "0700111"
       ((List.lookup "pin" exBody).getD .null) =
         .ok (foundResult exCustomer ((List.lookup "pin" exBody).getD .null)) ∧
     jvalEq (exCustomer.pin.getD .null)
       ((List.lookup "pin" exBody).getD .null) = true) ∧
    approvedOf (dispense_verification (some exBody) exDb 0 "t") =
      some (.jv (.bool true)) ∧
    List.lookup "user_data"
        (dispense_verification (some exBody) exDb 0 "t").body =
      some (.obj (customer_data exCustomer)) ∧
    "pin" ∉ (customer_data exCustomer).map Prod.fst := by
  have h := claim5 exBody exDb 0 "t" "0700111" exCustomer (by decide) rfl
    (by decide) (by decide) rfl (by decide) (by decide) (by decide)
  exact ⟨⟨by decide, rfl, by decide, rfl, by decide⟩, h.1, h.2.1, h.2.2.2.2⟩

/-- C6 fails as stated for the empty JSON body: `{}` has all three
required fields missing, yet Python `if not data` treats the empty
dict like absent input, so the 400 response is the "No JSON data
provided" error without any `approved` or `reason` field. -/
theorem claim6_counterexample :
    (dispense_verification (some []) (fun _ => .ok []) 0 "t").status = 400 ∧
    List.lookup "approved"
      (dispense_verification (some []) (fun _ => .ok []) 0 "t").body = none ∧
    List.lookup "reason"
      (dispense_verification (some []) (fun _ => .ok []) 0 "t").body = none ∧
    List.lookup "error"
      (dispense_verification (some []) (fun _ => .ok []) 0 "t").body =
        some (.jv (.str "No JSON data provided")) := by
  decide

/-- C6 (amended): for every dispense request with a non-empty JSON
body in which kiosk_id, user_id or pin is missing, the endpoint
returns HTTP 400 with approved=false and reason "Invalid request
format" before any lookup, and the backend is never queried. -/
theorem claim6 (body : List (String × JValue)) (db : DB) (r : ℚ) (now : String)
    (hne : body ≠ [])
    (h : List.lookup "kiosk_id" body = none ∨
         List.lookup "user_id" body = none ∨
         List.lookup "pin" body = none) :
    dispense_verification (some body) db r now = ⟨400, invalidFormatBody, []⟩ ∧
    (dispense_verification (some body) db r now).status = 400 ∧
    approvedOf (dispense_verification (some body) db r now) =
      some (.jv (.bool false)) ∧
    reasonOf (dispense_verification (some body) db r now) =
      some (.jv (.str "Invalid request format")) ∧
    (dispense_verification (some body) db r now).queried = [] := by
  have h' : otruthy (List.lookup "kiosk_id" body) = false ∨
      otruthy (List.lookup "user_id" body) = false ∨
      otruthy (List.lookup "pin" body) = false := by
    rcases h with h | h | h
    · exact Or.inl (by simp [otruthy, h])
    · exact Or.inr (Or.inl (by simp [otruthy, h]))
    · exact Or.inr (Or.inr (by simp [otruthy, h]))
  have hmain := dispense_invalid body db r now hne h'
  exact ⟨hmain, by rw [hmain], by rw [hmain]; rfl, by rw [hmain]; rfl,
    by rw [hmain]⟩

/-- Witness for C6: a non-empty body missing `pin`. -/
theorem claim6_witness :
    ([(("kiosk_id" : String), JValue.str "K1"), ("user_id", JValue.str "0700111")] ≠
      ([] : List (String × JValue)) ∧
     List.lookup "pin"
       [(("kiosk_id" : String), JValue.str "K1"), ("user_id", JValue.str "0700111")] = none) ∧
    dispense_verification
        (some [(("kiosk_id" : String), JValue.str "K1"), ("user_id", JValue.str "0700111")])
        (fun _ => .ok []) 0 "t" =
      ⟨400, invalidFormatBody, []⟩ := by
  have h := claim6
    [(("kiosk_id" : String), JValue.str "K1"), ("user_id", JValue.str "0700111")]
    (fun _ => .ok []) 0 "t" (by decide) (Or.inr (Or.inr rfl))
  exact ⟨⟨by decide, rfl⟩, h.1⟩

/-- C7 fails as stated: a request missing `pin` is a POST to the
endpoint, but its 400 response carries none of the decision-object
fields (no kiosk id, no echoed user_id, no volume, no timestamp). -/
theorem claim7_counterexample :
    List.lookup "kiosk_id"
      (dispense_verification
        (some [(("kiosk_id" : String), JValue.str "K1"), ("user_id", JValue.str "0712")])
        (fun _ => .ok []) 0 "t").body = none ∧
    List.lookup "user_id"
      (dispense_verification
        (some [(("kiosk_id" : String), JValue.str "K1"), ("user_id", JValue.str "0712")])
        (fun _ => .ok []) 0 "t").body = none ∧
    List.lookup "timestamp"
      (dispense_verification
        (some [(("kiosk_id" : String), JValue.str "K1"), ("user_id", JValue.str "0712")])
        (fun _ => .ok []) 0 "t").body = none ∧
    List.lookup "volume_ml"
      (dispense_verification
        (some [(("kiosk_id" : String), JValue.str "K1"), ("user_id", JValue.str "0712")])
        (fun _ => .ok []) 0 "t").body = none := by
  decide

/-- C7 (amended): every dispense request that passes the
required-field check returns a 200 decision object containing the
kiosk id, the claimed phone echoed as user_id, the PIN as received,
the requested volume, an approval boolean, a reason string, the
response timestamp, and the customer data (as a nested object) when
present. -/
theorem claim7 (body : List (String × JValue)) (db : DB) (r : ℚ) (now : String)
    (hk : otruthy (List.lookup "kiosk_id" body) = true)
    (hu : otruthy (List.lookup "user_id" body) = true)
    (hp : otruthy (List.lookup "pin" body) = true) :
    (dispense_verification (some body) db r now).status = 200 ∧
    List.lookup "kiosk_id" (dispense_verification (some body) db r now).body =
      some (.jv ((List.lookup "kiosk_id" body).getD .null)) ∧
    List.lookup "user_id" (dispense_verification (some body) db r now).body =
      some (.jv ((List.lookup "user_id" body).getD .null)) ∧
    List.lookup "pin" (dispense_verification (some body) db r now).body =
      some (.jv ((List.lookup "pin" body).getD .null)) ∧
    List.lookup "volume_ml" (dispense_verification (some body) db r now).body =
      some (.jv ((List.lookup "volume_ml" body).getD .null)) ∧
    List.lookup "timestamp" (dispense_verification (some body) db r now).body =
      some (.jv (.str now)) ∧
    (∃ b : Bool,
      List.lookup "approved" (dispense_verification (some body) db r now).body =
        some (.jv (.bool b))) ∧
    (∃ s : String,
      List.lookup "reason" (dispense_verification (some body) db r now).body =
        some (.jv (.str s))) ∧
    (List.lookup "user_data" (dispense_verification (some body) db r now).body =
        none ∨
     ∃ d, List.lookup "user_data"
        (dispense_verification (some body) db r now).body = some (.obj d)) := by
  have hmain := dispense_ok body db r now hk hu hp
  rw [hmain]
  refine ⟨rfl, mk_lookup_kiosk _ _ _ _ _ _ _ _, mk_lookup_user_id _ _ _ _ _ _ _ _,
    mk_lookup_pin _ _ _ _ _ _ _ _, mk_lookup_volume _ _ _ _ _ _ _ _,
    mk_lookup_timestamp _ _ _ _ _ _ _ _,
    ⟨_, mk_lookup_approved _ _ _ _ _ _ _ _⟩,
    ⟨_, mk_lookup_reason _ _ _ _ _ _ _ _⟩, ?_⟩
  cases hud : (dispatchLookup ((List.lookup "user_id" body).getD .null)
      ((List.lookup "pin" body).getD .null) db r).2.2.1 with
  | none => exact Or.inl (by simp [mk_lookup_user_data, hud])
  | some d => exact Or.inr ⟨d, by simp [mk_lookup_user_data, hud]⟩

/-- Witness for C7 at a complete request. -/
theorem claim7_witness :
    (otruthy (List.lookup "kiosk_id" exBody) = true ∧
     otruthy (List.lookup "user_id" exBody) = true ∧
     otruthy (List.lookup "pin" exBody) = true) ∧
    (dispense_verification (some exBody) exDb 0 "t").status = 200 ∧
    List.lookup "kiosk_id" (dispense_verification (some exBody) exDb 0 "t").body =
      some (.jv (.str "K1")) ∧
    List.lookup "timestamp" (dispense_verification (some exBody) exDb 0 "t").body =
      some (.jv (.str "t")) := by
  have h := claim7 exBody exDb 0 "t" (by decide) (by decide) (by decide)
  exact ⟨⟨by decide, by decide, by decide⟩, h.1, h.2.1.trans (by decide),
    h.2.2.2.2.2.1⟩

/-- C8: each filter string is URL-escaped individually and appended as
a repeated `queries[]=` parameter in the order given; an empty filter
list requests the unfiltered document listing with no query
parameters. -/
theorem claim8 (database collection : String) (queries : List String) :
    database_query_path database collection queries =
      claimedQueryPath database collection queries := by
  cases queries with
  | nil => rfl
  | cons q qs =>
    simp [database_query_path, claimedQueryPath, escapedParams_eq_map]

/-- C9: for an input with no occurrence of "+254", the second, third
and fourth candidate variants all equal the literal input, so an
unmatched lookup queries the backend with the same string four times
before the final "+254"-prefixed candidate. -/
theorem claim9 (p : String) (h : containsSub p "+254" = false) :
    phone_variants p =
      [p, p, p, p,
       if !(pyStartsWith p "+") then "+254" ++ lstripZeros p else p] ∧
    ∀ db : DB, (∀ v, db v = .ok []) →
      lookupTrace db (phone_variants p) =
        [p, p, p, p,
         if !(pyStartsWith p "+") then "+254" ++ lstripZeros p else p] := by
  have h1 := pyReplace_of_no_occurrence p "+254" "0" h
  have h2 := pyReplace_of_no_occurrence p "+254" "254" h
  have h3 := pyReplace_of_no_occurrence p "+254" "" h
  have hv : phone_variants p =
      [p, p, p, p,
       if !(pyStartsWith p "+") then "+254" ++ lstripZeros p else p] := by
    simp [phone_variants, h1, h2, h3]
  refine ⟨hv, fun db hdb => ?_⟩
  have := (lookupLoop_all_empty db .null (phone_variants p)
    (fun u _ => hdb u)).2
  rw [this, hv]

/-- Witness for C9 at the concrete input "0712345678". -/
theorem claim9_witness :
    containsSub "0712345678" "+254" = false ∧
    phone_variants "0712345678" =
      ["0712345678", "0712345678", "0712345678", "0712345678",
       "+254712345678"] ∧
    lookupTrace (fun _ => .ok []) (phone_variants "0712345678") =
      ["0712345678", "0712345678", "0712345678", "0712345678",
       "+254712345678"] := by
  have h := claim9 "0712345678" (by decide)
  refine ⟨by decide, h.1.trans (by decide), ?_⟩
  exact (h.2 (fun _ => .ok []) (fun v => rfl)).trans (by decide)

/-- C10: a required field that is present but falsy (empty string, 0,
false or null) is rejected exactly like an absent field: HTTP 400
with approved=false and reason "Invalid request format", and no
backend query is issued. -/
theorem claim10 (body : List (String × JValue)) (db : DB) (r : ℚ) (now : String)
    (v : JValue)
    (hv : truthy v = false)
    (h : List.lookup "kiosk_id" body = some v ∨
         List.lookup "user_id" body = some v ∨
         List.lookup "pin" body = some v) :
    dispense_verification (some body) db r now = ⟨400, invalidFormatBody, []⟩ ∧
    ∀ b₂ : List (String × JValue), b₂ ≠ [] →
      (List.lookup "kiosk_id" b₂ = none ∨
       List.lookup "user_id" b₂ = none ∨
       List.lookup "pin" b₂ = none) →
      dispense_verification (some b₂) db r now =
        dispense_verification (some body) db r now := by
  have hne : body ≠ [] := by
    rintro rfl
    rcases h with h | h | h <;> simp [List.lookup] at h
  have h' : otruthy (List.lookup "kiosk_id" body) = false ∨
      otruthy (List.lookup "user_id" body) = false ∨
      otruthy (List.lookup "pin" body) = false := by
    rcases h with h | h | h
    · exact Or.inl (by simp [otruthy, h, hv])
    · exact Or.inr (Or.inl (by simp [otruthy, h, hv]))
    · exact Or.inr (Or.inr (by simp [otruthy, h, hv]))
  have hmain := dispense_invalid body db r now hne h'
  refine ⟨hmain, fun b₂ hb₂ h₂ => ?_⟩
  have h₂' : otruthy (List.lookup "kiosk_id" b₂) = false ∨
      otruthy (List.lookup "user_id" b₂) = false ∨
      otruthy (List.lookup "pin" b₂) = false := by
    rcases h₂ with h₂ | h₂ | h₂
    · exact Or.inl (by simp [otruthy, h₂])
    · exact Or.inr (Or.inl (by simp [otruthy, h₂]))
    · exact Or.inr (Or.inr (by simp [otruthy, h₂]))
  rw [dispense_invalid b₂ db r now hb₂ h₂', hmain]

/-- Witness for C10: `pin` present but the empty string behaves like an
absent `pin`. -/
theorem claim10_witness :
    (truthy (JValue.str "") = false ∧
     List.lookup "pin"
       [(("kiosk_id" : String), JValue.str "K1"), ("user_id", JValue.str "0700111"),
        ("pin", JValue.str "")] = some (JValue.str "")) ∧
    dispense_verification
        (some [(("kiosk_id" : String), JValue.str "K1"),
               ("user_id", JValue.str "0700111"), ("pin", JValue.str "")])
        (fun _ => .ok []) 0 "t" =
      ⟨400, invalidFormatBody, []⟩ ∧
    dispense_verification (some [(("kiosk_id" : String), JValue.str "K1")])
        (fun _ => .ok []) 0 "t" =
      dispense_verification
        (some [(("kiosk_id" : String), JValue.str "K1"),
               ("user_id", JValue.str "0700111"), ("pin", JValue.str "")])
        (fun _ => .ok []) 0 "t" := by
  have h := claim10
    [(("kiosk_id" : String), JValue.str "K1"), ("user_id", JValue.str "0700111"),
     ("pin", JValue.str "")]
    (fun _ => .ok []) 0 "t" (JValue.str "") (by decide)
    (Or.inr (Or.inr rfl))
  exact ⟨⟨by decide, rfl⟩, h.1,
    h.2 [(("kiosk_id" : String), JValue.str "K1")] (by decide)
      (Or.inr (Or.inl rfl))⟩
